import Mathlib

/-!
A shallow embedding of the virtio-cryptodev paravirtualized crypto device:
the guest character-device driver (`crypto-chrdev.c`) and the host-side
virtqueue dispatcher (`vq_handle_output` in `virtio-cryptodev.c`).

A request travels as an ordered list of scatter-gather regions: the
guest-writable ("output") regions first, then the host-writable ("input")
regions.  The guest encoder is embedded as functions from the ioctl
command and the outcomes of the copy-from-user steps to the submitted
region lists, the value returned to the caller, and the set of regions
copied back to the caller's address space.  The host dispatcher is
embedded as a function from the popped virtqueue element (and the results
of the real-device calls) to the ordered list of effects it performs:
real-device calls, writes into input regions, returning the element to the
queue, and notifying the guest.
-/

namespace VirtioCryptodev

/-- Modelled from the spec: the syscall-type enumeration {OPEN, CLOSE, IOCTL}
(`VIRTIO_CRYPTODEV_SYSCALL_TYPE_*`, defined in the repository header
`virtio-cryptodev.h`, which is not among the sources; the guest file spells
the same constants `VIRTIO_CRYPTODEV_SYSCALL_*`).  Only the distinctness of
the three values is relied on. -/
def VIRTIO_CRYPTODEV_SYSCALL_TYPE_OPEN : Nat := 0

/-- Modelled from the spec: see `VIRTIO_CRYPTODEV_SYSCALL_TYPE_OPEN`. -/
def VIRTIO_CRYPTODEV_SYSCALL_TYPE_CLOSE : Nat := 1

/-- Modelled from the spec: see `VIRTIO_CRYPTODEV_SYSCALL_TYPE_OPEN`. -/
def VIRTIO_CRYPTODEV_SYSCALL_TYPE_IOCTL : Nat := 2

/-- Ioctl request code for session creation (`CIOCGSESSION`, from the
external header `crypto/cryptodev.h`).  The number is an opaque tag; only
its distinctness from the other command codes is relied on. -/
def CIOCGSESSION : Nat := 102

/-- Ioctl request code for session teardown (`CIOCFSESSION`). -/
def CIOCFSESSION : Nat := 103

/-- Ioctl request code for an encrypt/decrypt operation (`CIOCCRYPT`). -/
def CIOCCRYPT : Nat := 104

/-- Errno returned by the read file operation (as `-EINVAL`). -/
def EINVAL : Int := 22

/-- Errno returned by `crypto_chrdev_open` on failure (as `-ENODEV`). -/
def ENODEV : Int := 19

/-- Labels for the scatter-gather regions the guest driver hands to
`virtqueue_add_sgs`; each label names the kernel buffer backing the region
in `crypto-chrdev.c`. -/
inductive Region
  /-- Region backed by the `syscall_type` allocation. -/
  | syscallType
  /-- Region backed by `crof->host_fd`, the stored host handle. -/
  | hostFd
  /-- Region backed by the ioctl `cmd` word. -/
  | cmdCode
  /-- Region backed by `output_msg`, the guest-to-host diagnostic string. -/
  | outputMsg
  /-- Region backed by `input_msg`, the host-to-guest diagnostic string. -/
  | inputMsg
  /-- Region backed by `copied_session`, the `struct session_op` descriptor. -/
  | sessionDesc
  /-- Region backed by `session_key`, the copied key bytes. -/
  | sessionKey
  /-- Region backed by `copied_crypt`, the `struct crypt_op` descriptor. -/
  | cryptDesc
  /-- Region backed by `crypto_src`, the source bytes of a crypt operation. -/
  | srcBytes
  /-- Region backed by `crypto_dst`, the host-produced destination bytes. -/
  | dstBytes
  /-- Region backed by `crypto_iv`, the 16-byte initialization vector. -/
  | ivBytes
  /-- Region backed by `copied_sess_ses`, the FREE_SESSION session id. -/
  | sessIdent
  deriving DecidableEq

/-- What one `crypto_chrdev_ioctl` call does, as a function of its inputs:
the ordered guest-writable (`out_regions`) and host-writable (`in_regions`)
region lists handed to `virtqueue_add_sgs`, whether the request was
submitted at all (a failed `copy_from_user` jumps to `fail` before
`virtqueue_add_sgs`), the value returned to the caller, and the set of
regions copied back to the caller's address space after completion. -/
structure IoctlCall where
  out_regions : List Region
  in_regions : List Region
  submitted : Bool
  ret : Int
  copiedBack : List Region
  deriving DecidableEq

/-- The guest driver's ioctl entry point `crypto_chrdev_ioctl`
(crypto-chrdev.c, lines 185-378), as a function of the command, of the two
`copy_from_user` results on the CIOCGSESSION path (the number of bytes left
uncopied, so `0` means success), and of the status value the host wrote
into the completed descriptor set.  Faithful to the source: the
CIOCFSESSION and CIOCCRYPT payload transfers and the CIOCGSESSION
`session_key_sg` submission are commented out in the source, the driver
never calls `copy_to_user`, and it never reads the host status (the
`hostStatus` argument is unused, mirroring that the completed buffers are
only ever `debug`-printed). -/
def crypto_chrdev_ioctl (cmd : Nat) (sessionCopyLeft keyCopyLeft : Nat)
    (hostStatus : Int) : IoctlCall :=
  if cmd = CIOCGSESSION then
    if sessionCopyLeft ≠ 0 then
      { out_regions := [.syscallType, .hostFd, .cmdCode, .outputMsg],
        in_regions := [.inputMsg],
        submitted := false, ret := (sessionCopyLeft : Int), copiedBack := [] }
    else if keyCopyLeft ≠ 0 then
      { out_regions := [.syscallType, .hostFd, .cmdCode, .outputMsg],
        in_regions := [.inputMsg],
        submitted := false, ret := (keyCopyLeft : Int), copiedBack := [] }
    else
      { out_regions := [.syscallType, .hostFd, .cmdCode, .outputMsg],
        in_regions := [.inputMsg, .sessionDesc],
        submitted := true, ret := 0, copiedBack := [] }
  else if cmd = CIOCFSESSION then
    { out_regions := [.syscallType, .hostFd, .cmdCode, .outputMsg],
      in_regions := [.inputMsg],
      submitted := true, ret := 0, copiedBack := [] }
  else if cmd = CIOCCRYPT then
    { out_regions := [.syscallType, .hostFd, .cmdCode, .outputMsg],
      in_regions := [.inputMsg],
      submitted := true, ret := 0, copiedBack := [] }
  else
    { out_regions := [.syscallType, .hostFd, .cmdCode],
      in_regions := [],
      submitted := true, ret := 0, copiedBack := [] }

/-- The device-registry walk `get_crypto_dev_by_minor` (crypto-chrdev.c,
lines 35-54): scan the registered devices (represented by their minor
numbers) for the first one matching `minor`, `none` when there is none. -/
def get_crypto_dev_by_minor (devs : List Nat) (minor : Nat) : Option Nat :=
  devs.find? (fun d => d == minor)

/-- Output regions of the OPEN envelope (crypto-chrdev.c, lines 111-112). -/
def openCall_out_regions : List Region := [.syscallType]

/-- Input regions of the OPEN envelope (crypto-chrdev.c, lines 113-114):
the sole host-writable region aliases `crof->host_fd` itself, so the
host's write lands directly in the context. -/
def openCall_in_regions : List Region := [.hostFd]

/-- The guest driver's `crypto_chrdev_open` (crypto-chrdev.c, lines
61-139), as a function of the device registry, the requested minor, and
the handle value the host wrote into `crof->host_fd` through the sole
input region of the OPEN envelope.  `Except.error e` models returning the
negative errno `e`; `Except.ok fd` models returning 0 with `fd` stored in
the context.  The `kzalloc` and `nonseekable_open` environment steps are
modelled as succeeding. -/
def crypto_chrdev_open (devs : List Nat) (minor : Nat)
    (hostFdWritten : Int) : Except Int Int :=
  if (get_crypto_dev_by_minor devs minor).isSome then
    if hostFdWritten < 0 then .error (-ENODEV) else .ok hostFdWritten
  else .error (-ENODEV)

/-- What one `crypto_chrdev_release` call does: the region lists of the
CLOSE envelope, whether the context was freed, and the returned value. -/
structure ReleaseCall where
  out_regions : List Region
  in_regions : List Region
  crofFreed : Bool
  ret : Int
  deriving DecidableEq

/-- The guest driver's `crypto_chrdev_release` (crypto-chrdev.c, lines
141-183), as a function of the host-side outcome of the close (which the
guest never sees: `num_in` stays 0 and `ret` is never reassigned): it
submits `syscall_type` and `crof->host_fd` as guest-writable regions only,
frees the context (`kfree(crof)`), and returns 0. -/
def crypto_chrdev_release (hostCloseOutcome : Int) : ReleaseCall :=
  { out_regions := [.syscallType, .hostFd], in_regions := [],
    crofFreed := true, ret := 0 }

/-- The guest driver's `crypto_chrdev_read` (crypto-chrdev.c, lines
380-386), as a function of the user buffer (as an opaque address), the
count and the file position: the pair of the returned value and the number
of bytes transferred. -/
def crypto_chrdev_read (usrbuf : Nat) (cnt : Nat) (f_pos : Int) : Int × Nat :=
  (-EINVAL, 0)

/-- The part of a popped `VirtQueueElement` that the host dispatcher
reads: `syscall_type` is the content of `out_sg[0]`, `host_fd` of
`out_sg[1]`, and `cmd` of `out_sg[2]` (the latter two are only
dereferenced on the CLOSE and IOCTL paths). -/
structure VirtQueueElem where
  syscall_type : Nat
  host_fd : Int
  cmd : Nat
  deriving DecidableEq

/-- Results of the real-device calls the host dispatcher makes.  The
dispatcher stores them (into status regions) but branches on none of them
beyond a debug print: errors reach the guest only through the written
values. -/
structure HostEnv where
  openResult : Int
  ioctlResult : Int
  closeResult : Int
  deriving DecidableEq

/-- One observable step of the host dispatcher `vq_handle_output`. -/
inductive Effect
  /-- Host rewrites a pointer field inside the buffer of input region `i`
  (the pointer-fixup assignments such as `sess->key = key`). -/
  | patchPtr (i : Nat)
  /-- Host stores the integer `v` into the buffer of input region `i`. -/
  | writeRes (i : Nat) (v : Int)
  /-- Host performs `open("/dev/crypto", O_RDWR)`. -/
  | callOpenDev
  /-- Host performs `close(fd)` on the real device. -/
  | callCloseDev (fd : Int)
  /-- Host performs `ioctl(fd, c, ...)` on the real crypto device. -/
  | callIoctlDev (fd : Int) (c : Nat)
  /-- Host returns the element to the queue: `virtqueue_push(vq, elem, 0)`. -/
  | pushElem
  /-- Host raises the notification: `virtio_notify(vdev, vq)`. -/
  | notifyGuest
  deriving DecidableEq

/-- Input-region index at which the host OPEN branch writes the new handle
(`host_fd = elem->in_sg[0].iov_base`, virtio-cryptodev.c line 74). -/
def host_open_handle_in_idx : Nat := 0

/-- Input-region index at which the host CIOCGSESSION branch reads the
session descriptor (`sess = elem->in_sg[0].iov_base`, line 107). -/
def host_gsession_sess_in_idx : Nat := 0

/-- Input-region index at which the host CIOCGSESSION branch reads the key
bytes (`key = elem->in_sg[1].iov_base`, line 108). -/
def host_gsession_key_in_idx : Nat := 1

/-- Input-region index at which the host CIOCGSESSION branch writes the
status (`host_return_val = elem->in_sg[2].iov_base`, line 109). -/
def host_gsession_status_in_idx : Nat := 2

/-- Input-region index at which the host CIOCFSESSION branch reads the
session id (`ses = elem->in_sg[0].iov_base`, line 121). -/
def host_fsession_ses_in_idx : Nat := 0

/-- Input-region index at which the host CIOCFSESSION branch writes the
status (`host_return_val = elem->in_sg[1].iov_base`, line 122). -/
def host_fsession_status_in_idx : Nat := 1

/-- Input-region index at which the host CIOCCRYPT branch reads the crypt
descriptor (`crypt = elem->in_sg[0].iov_base`, line 133). -/
def host_crypt_desc_in_idx : Nat := 0

/-- Input-region index at which the host CIOCCRYPT branch reads the source
bytes (`src = elem->in_sg[1].iov_base`, line 134). -/
def host_crypt_src_in_idx : Nat := 1

/-- Input-region index at which the host CIOCCRYPT branch reads the
destination bytes (`dst = elem->in_sg[2].iov_base`, line 135). -/
def host_crypt_dst_in_idx : Nat := 2

/-- Input-region index at which the host CIOCCRYPT branch reads the IV
(`iv = elem->in_sg[3].iov_base`, line 136). -/
def host_crypt_iv_in_idx : Nat := 3

/-- Input-region index at which the host CIOCCRYPT branch writes the
status (`host_return_val = elem->in_sg[4].iov_base`, line 137). -/
def host_crypt_status_in_idx : Nat := 4

/-- The inner command switch of the host IOCTL arm (virtio-cryptodev.c,
lines 104-153), as the effect trace of one execution: pointer fixups into
input region 0, the real-device ioctl, and the status write — nothing for
an unsupported command. -/
def hostIoctlBranch (env : HostEnv) (e : VirtQueueElem) : List Effect :=
  if e.cmd = CIOCGSESSION then
    [.patchPtr host_gsession_sess_in_idx,
     .callIoctlDev e.host_fd CIOCGSESSION,
     .writeRes host_gsession_status_in_idx env.ioctlResult]
  else if e.cmd = CIOCFSESSION then
    [.callIoctlDev e.host_fd CIOCFSESSION,
     .writeRes host_fsession_status_in_idx env.ioctlResult]
  else if e.cmd = CIOCCRYPT then
    [.patchPtr host_crypt_desc_in_idx, .patchPtr host_crypt_desc_in_idx,
     .patchPtr host_crypt_desc_in_idx,
     .callIoctlDev e.host_fd CIOCCRYPT,
     .writeRes host_crypt_status_in_idx env.ioctlResult]
  else []

/-- The host dispatcher `vq_handle_output` (virtio-cryptodev.c, lines
51-165), as the ordered list of effects of one invocation; `none` models
`virtqueue_pop` returning NULL (the dispatcher then only notifies, the
push being commented out on that path).  After the syscall switch — every
branch of which falls through — the element is pushed back and the guest
is notified, unconditionally. -/
def vq_handle_output (env : HostEnv) (elem : Option VirtQueueElem) :
    List Effect :=
  match elem with
  | none => [.notifyGuest]
  | some e =>
      (if e.syscall_type = VIRTIO_CRYPTODEV_SYSCALL_TYPE_OPEN then
        [.callOpenDev, .writeRes host_open_handle_in_idx env.openResult]
      else if e.syscall_type = VIRTIO_CRYPTODEV_SYSCALL_TYPE_CLOSE then
        [.callCloseDev e.host_fd]
      else if e.syscall_type = VIRTIO_CRYPTODEV_SYSCALL_TYPE_IOCTL then
        hostIoctlBranch env e
      else [])
      ++ [.pushElem, .notifyGuest]

/-- C1: refuted by the code.  On a CIOCGSESSION ioctl the guest submits
only four output regions — the key bytes never go on the wire (the
`session_key_sg` submission is commented out in the source) — and places
the session descriptor at input index 1, while the host reads the session
descriptor at input index 0, the key bytes at input index 1, and writes
the status at input index 2, which lies beyond the two input regions the
guest supplied: the two sides do not agree on the positional layout. -/
theorem C1_gsession_layout_diverges :
    (crypto_chrdev_ioctl CIOCGSESSION 0 0 0).out_regions
        = [.syscallType, .hostFd, .cmdCode, .outputMsg]
    ∧ Region.sessionKey ∉ (crypto_chrdev_ioctl CIOCGSESSION 0 0 0).out_regions
    ∧ Region.sessionKey ∉ (crypto_chrdev_ioctl CIOCGSESSION 0 0 0).in_regions
    ∧ (crypto_chrdev_ioctl CIOCGSESSION 0 0 0).in_regions
        = [.inputMsg, .sessionDesc]
    ∧ (crypto_chrdev_ioctl CIOCGSESSION 0 0 0).in_regions[host_gsession_sess_in_idx]?
        ≠ some Region.sessionDesc
    ∧ (crypto_chrdev_ioctl CIOCGSESSION 0 0 0).in_regions[host_gsession_key_in_idx]?
        ≠ some Region.sessionKey
    ∧ host_gsession_status_in_idx
        ≥ (crypto_chrdev_ioctl CIOCGSESSION 0 0 0).in_regions.length := by
  decide

/-- C2: refuted by the code.  On a CIOCCRYPT ioctl every command-specific
transfer is commented out in the source: the guest sends neither the crypt
descriptor nor the source, destination or IV bytes (only the common header
and the diagnostic strings go on the wire), the host expects the
destination at input index 2 while the guest supplies a single input
region, and the driver copies nothing back to the caller. -/
theorem C2_crypt_payload_missing :
    (crypto_chrdev_ioctl CIOCCRYPT 0 0 0).out_regions
        = [.syscallType, .hostFd, .cmdCode, .outputMsg]
    ∧ (crypto_chrdev_ioctl CIOCCRYPT 0 0 0).in_regions = [.inputMsg]
    ∧ Region.cryptDesc ∉ (crypto_chrdev_ioctl CIOCCRYPT 0 0 0).out_regions
    ∧ Region.srcBytes ∉ (crypto_chrdev_ioctl CIOCCRYPT 0 0 0).out_regions
    ∧ Region.ivBytes ∉ (crypto_chrdev_ioctl CIOCCRYPT 0 0 0).out_regions
    ∧ Region.dstBytes ∉ (crypto_chrdev_ioctl CIOCCRYPT 0 0 0).in_regions
    ∧ host_crypt_dst_in_idx
        ≥ (crypto_chrdev_ioctl CIOCCRYPT 0 0 0).in_regions.length
    ∧ (crypto_chrdev_ioctl CIOCCRYPT 0 0 0).copiedBack = [] := by
  decide

/-- C3: half holds, half refuted by the code.  With both copy-from-user
steps succeeding, the guest does submit the session descriptor as a
host-writable (input) region, and the request is submitted; but on
completion the driver never copies the descriptor back to the caller
(there is no `copy_to_user` anywhere in the driver), so the assigned
session id never reaches the caller's address space. -/
theorem C3_sessiondesc_writable_but_never_copied_back :
    Region.sessionDesc ∈ (crypto_chrdev_ioctl CIOCGSESSION 0 0 0).in_regions
    ∧ (crypto_chrdev_ioctl CIOCGSESSION 0 0 0).submitted = true
    ∧ Region.sessionDesc ∉ (crypto_chrdev_ioctl CIOCGSESSION 0 0 0).copiedBack
    ∧ (crypto_chrdev_ioctl CIOCGSESSION 0 0 0).copiedBack = [] := by
  decide

/-- C4: refuted by the code (and flagged as a latent bug in the spec's
design notes).  On a CIOCFSESSION ioctl the guest's session-identifier
transfer is commented out in the source: no submitted region carries the
session id; the host nevertheless invokes the real teardown call, reading
input index 0 — which the guest filled with the diagnostic buffer — as the
session id, and writing the status at input index 1, beyond the single
input region the guest supplied. -/
theorem C4_fsession_sessid_not_transmitted :
    Region.sessIdent ∉ (crypto_chrdev_ioctl CIOCFSESSION 0 0 0).out_regions
    ∧ Region.sessIdent ∉ (crypto_chrdev_ioctl CIOCFSESSION 0 0 0).in_regions
    ∧ (crypto_chrdev_ioctl CIOCFSESSION 0 0 0).in_regions[host_fsession_ses_in_idx]?
        = some Region.inputMsg
    ∧ host_fsession_status_in_idx
        ≥ (crypto_chrdev_ioctl CIOCFSESSION 0 0 0).in_regions.length
    ∧ hostIoctlBranch ⟨0, 0, 0⟩ ⟨VIRTIO_CRYPTODEV_SYSCALL_TYPE_IOCTL, 3, CIOCFSESSION⟩
        = [.callIoctlDev 3 CIOCFSESSION,
           .writeRes host_fsession_status_in_idx 0] := by
  decide

/-- C10: the character device's read operation returns `-EINVAL` and
transfers no bytes, for every buffer, count and file position. -/
theorem C10_read_always_einval (usrbuf cnt : Nat) (f_pos : Int) :
    crypto_chrdev_read usrbuf cnt f_pos = (-EINVAL, 0) := rfl

/-- Registry lookup succeeds exactly for registered minors. -/
theorem get_dev_isSome_iff (devs : List Nat) (minor : Nat) :
    (get_crypto_dev_by_minor devs minor).isSome ↔ minor ∈ devs := by
  simp [get_crypto_dev_by_minor, List.find?_isSome]

/-- C5: `crypto_chrdev_open` succeeds exactly when the registry holds the
requested minor and the host wrote a non-negative handle into the sole
host-writable region of the OPEN envelope; on success the stored handle is
the one the host wrote; and the host-side OPEN dispatch performs the real
open, writes its result — whatever its sign — into input region 0, and
always completes the element, never failing the dispatch itself. -/
theorem C5_open_contract (devs : List Nat) (minor : Nat) (h : Int)
    (env : HostEnv) (e : VirtQueueElem) :
    ((∃ v, crypto_chrdev_open devs minor h = .ok v) ↔ (minor ∈ devs ∧ 0 ≤ h))
    ∧ (minor ∈ devs → 0 ≤ h → crypto_chrdev_open devs minor h = .ok h)
    ∧ openCall_in_regions = [Region.hostFd]
    ∧ (e.syscall_type = VIRTIO_CRYPTODEV_SYSCALL_TYPE_OPEN →
        vq_handle_output env (some e)
          = [.callOpenDev, .writeRes host_open_handle_in_idx env.openResult,
             .pushElem, .notifyGuest]) := by
  have hdev := get_dev_isSome_iff devs minor
  refine ⟨?_, ?_, rfl, ?_⟩
  · constructor
    · rintro ⟨v, hv⟩
      unfold crypto_chrdev_open at hv
      by_cases hd : (get_crypto_dev_by_minor devs minor).isSome
      · by_cases hneg : h < 0
        · rw [if_pos hd, if_pos hneg] at hv; exact absurd hv (by simp)
        · exact ⟨hdev.mp hd, by omega⟩
      · rw [if_neg hd] at hv; exact absurd hv (by simp)
    · rintro ⟨hmem, hpos⟩
      refine ⟨h, ?_⟩
      unfold crypto_chrdev_open
      rw [if_pos (hdev.mpr hmem), if_neg (by omega)]
  · intro hmem hpos
    unfold crypto_chrdev_open
    rw [if_pos (hdev.mpr hmem), if_neg (by omega)]
  · intro he
    simp [vq_handle_output, he, VIRTIO_CRYPTODEV_SYSCALL_TYPE_OPEN]

/-- C5 witness: a registry holding minor 0, a host handle 7, and an OPEN
element with a negative real-open result still completes the dispatch. -/
theorem C5_open_contract_witness :
    crypto_chrdev_open [0] 0 7 = .ok 7
    ∧ vq_handle_output ⟨-1, 0, 0⟩
        (some ⟨VIRTIO_CRYPTODEV_SYSCALL_TYPE_OPEN, 0, 0⟩)
        = [.callOpenDev, .writeRes host_open_handle_in_idx (-1),
           .pushElem, .notifyGuest] :=
  ⟨(C5_open_contract [0] 0 7 ⟨-1, 0, 0⟩
      ⟨VIRTIO_CRYPTODEV_SYSCALL_TYPE_OPEN, 0, 0⟩).2.1 (by decide) (by decide),
   (C5_open_contract [0] 0 7 ⟨-1, 0, 0⟩
      ⟨VIRTIO_CRYPTODEV_SYSCALL_TYPE_OPEN, 0, 0⟩).2.2.2 rfl⟩

/-- C6: for every popped element — whatever the syscall type, the command,
and the results of the real-device calls — the dispatcher's effect trace
ends with returning the element to the queue followed by the notification,
and neither the push nor the notification occurs earlier: every popped
request is completed exactly once, never dropped. -/
theorem C6_always_push_once_and_notify (env : HostEnv) (e : VirtQueueElem) :
    ∃ pre : List Effect,
      vq_handle_output env (some e) = pre ++ [Effect.pushElem, Effect.notifyGuest]
      ∧ Effect.pushElem ∉ pre ∧ Effect.notifyGuest ∉ pre := by
  simp only [vq_handle_output, hostIoctlBranch]
  split_ifs <;> exact ⟨_, rfl, by simp, by simp⟩

/-- C7: an unrecognized ioctl command still goes on the wire carrying
exactly the three common-header regions, with no command-specific payload
and no input region, and the guest call is submitted and returns 0; the
host dispatcher for it makes no real-device call and performs no write —
the trace is just the push and the notification, the element returned
unchanged. -/
theorem C7_unknown_command_passthrough_noop (cmd a b : Nat) (s : Int)
    (env : HostEnv) (e : VirtQueueElem)
    (hg : cmd ≠ CIOCGSESSION) (hf : cmd ≠ CIOCFSESSION) (hc : cmd ≠ CIOCCRYPT)
    (he : e.syscall_type = VIRTIO_CRYPTODEV_SYSCALL_TYPE_IOCTL)
    (hec : e.cmd = cmd) :
    crypto_chrdev_ioctl cmd a b s
      = { out_regions := [.syscallType, .hostFd, .cmdCode], in_regions := [],
          submitted := true, ret := 0, copiedBack := [] }
    ∧ vq_handle_output env (some e) = [Effect.pushElem, Effect.notifyGuest] := by
  constructor
  · unfold crypto_chrdev_ioctl
    rw [if_neg hg, if_neg hf, if_neg hc]
  · simp [vq_handle_output, hostIoctlBranch, he, hec, hg, hf, hc,
      VIRTIO_CRYPTODEV_SYSCALL_TYPE_OPEN, VIRTIO_CRYPTODEV_SYSCALL_TYPE_CLOSE,
      VIRTIO_CRYPTODEV_SYSCALL_TYPE_IOCTL]

/-- C7 witness: command 0 is none of the three recognized codes. -/
theorem C7_unknown_command_witness :
    crypto_chrdev_ioctl 0 0 0 0
      = { out_regions := [.syscallType, .hostFd, .cmdCode], in_regions := [],
          submitted := true, ret := 0, copiedBack := [] }
    ∧ vq_handle_output ⟨0, 0, 0⟩
        (some ⟨VIRTIO_CRYPTODEV_SYSCALL_TYPE_IOCTL, 0, 0⟩)
        = [Effect.pushElem, Effect.notifyGuest] :=
  C7_unknown_command_passthrough_noop 0 0 0 0 ⟨0, 0, 0⟩
    ⟨VIRTIO_CRYPTODEV_SYSCALL_TYPE_IOCTL, 0, 0⟩
    (by decide) (by decide) (by decide) rfl rfl

/-- C8: release sends the CLOSE envelope with exactly the two
guest-writable regions carrying the syscall type and the stored handle,
supplies no host-writable region (nothing is expected back), always frees
the context and returns 0 whatever the host-side outcome; and the host
CLOSE branch just closes the transmitted handle, writes nothing back, and
completes the element. -/
theorem C8_release_always_frees (hostOutcome : Int) (env : HostEnv)
    (e : VirtQueueElem)
    (he : e.syscall_type = VIRTIO_CRYPTODEV_SYSCALL_TYPE_CLOSE) :
    crypto_chrdev_release hostOutcome
      = { out_regions := [.syscallType, .hostFd], in_regions := [],
          crofFreed := true, ret := 0 }
    ∧ vq_handle_output env (some e)
        = [Effect.callCloseDev e.host_fd, Effect.pushElem, Effect.notifyGuest] := by
  constructor
  · rfl
  · simp [vq_handle_output, he,
      VIRTIO_CRYPTODEV_SYSCALL_TYPE_OPEN, VIRTIO_CRYPTODEV_SYSCALL_TYPE_CLOSE]

/-- C8 witness: the host close having failed (outcome -1) changes
nothing. -/
theorem C8_release_witness :
    crypto_chrdev_release (-1)
      = { out_regions := [.syscallType, .hostFd], in_regions := [],
          crofFreed := true, ret := 0 }
    ∧ vq_handle_output ⟨0, -1, 0⟩
        (some ⟨VIRTIO_CRYPTODEV_SYSCALL_TYPE_CLOSE, 4, 0⟩)
        = [Effect.callCloseDev 4, Effect.pushElem, Effect.notifyGuest] :=
  C8_release_always_frees (-1) ⟨0, -1, 0⟩
    ⟨VIRTIO_CRYPTODEV_SYSCALL_TYPE_CLOSE, 4, 0⟩ rfl

/-- C9: the guest ioctl's return value never depends on the status the
host wrote into the completed descriptor set; it is 0 for every command
other than CIOCGSESSION (so unconditionally for CIOCFSESSION, CIOCCRYPT
and unrecognized commands), and 0 for any command whenever both
copy-from-user steps succeed. -/
theorem C9_ret_ignores_host_status (cmd a b : Nat) (s t : Int) :
    (crypto_chrdev_ioctl cmd a b s).ret = (crypto_chrdev_ioctl cmd a b t).ret
    ∧ (cmd ≠ CIOCGSESSION → (crypto_chrdev_ioctl cmd a b s).ret = 0)
    ∧ (a = 0 → b = 0 → (crypto_chrdev_ioctl cmd a b s).ret = 0) := by
  refine ⟨rfl, ?_, ?_⟩
  · intro hg
    unfold crypto_chrdev_ioctl
    rw [if_neg hg]
    split_ifs <;> rfl
  · intro ha hb
    subst ha; subst hb
    unfold crypto_chrdev_ioctl
    split_ifs <;> simp_all

/-- C9 witness: a CIOCGSESSION call with successful copies returns 0, and
an unrecognized command returns 0, both with a nonzero host status. -/
theorem C9_ret_witness :
    (crypto_chrdev_ioctl CIOCGSESSION 0 0 5).ret = 0
    ∧ (crypto_chrdev_ioctl 0 0 0 5).ret = 0 :=
  ⟨(C9_ret_ignores_host_status CIOCGSESSION 0 0 5 (-4)).2.2 rfl rfl,
   (C9_ret_ignores_host_status 0 0 0 5 (-4)).2.1 (by decide)⟩

end VirtioCryptodev
